import Mathlib

/-!
Shallow embedding of the Root robot BLE extension
(src/extensions/scratch3_root/index.js): the packet codec, the rate-limited
send path, the inbound sensor/event decoder, and the command/response
correlator of the block-level operations, together with theorems checking
the specification's claims against this embedding.

JavaScript numbers are modelled as rationals (`Rat`) where the source does
plain arithmetic, and the bitwise operators (`&`, `>>`) are modelled on
`Int` through the ECMAScript ToUint32/ToInt32 conversions they perform.
Times (signal arrival, deadlines) are rationals measured in milliseconds.
-/

namespace RootVM

/-! ## JavaScript numeric primitives -/

/-- ECMAScript ToUint32 of an integer: the representative of n mod 2^32 in
[0, 2^32). -/
def toUint32 (n : Int) : Nat := (n % (2 ^ 32 : Int)).toNat

/-- ECMAScript ToInt32 of an integer: the representative of n mod 2^32 in
[-2^31, 2^31). -/
def toInt32 (n : Int) : Int :=
  if toUint32 n < 2 ^ 31 then (toUint32 n : Int) else (toUint32 n : Int) - 2 ^ 32

/-- JavaScript bitwise AND `a & b`: both operands are converted to 32-bit
integers, the bitwise AND is taken on their two's-complement representations,
and the result is read back as a signed 32-bit integer. -/
def jsAnd (a b : Int) : Int := toInt32 (Int.ofNat (toUint32 a &&& toUint32 b))

/-- JavaScript sign-propagating right shift `a >> k`: the left operand is
converted to a 32-bit signed integer, the shift count is taken mod 32, and
the shift is arithmetic (floor division by 2^k). -/
def jsShr (a : Int) (k : Nat) : Int := Int.fdiv (toInt32 a) ((2 : Int) ^ (k % 32))

/-- ECMAScript ToInt32 truncation step for a (rational-modelled) JS number:
truncate toward zero.  The mod-2^32 wrapping is performed by the bitwise
operators themselves via `toUint32`/`toInt32`. -/
def ratTrunc (q : ℚ) : Int := if q < 0 then ⌈q⌉ else ⌊q⌋

/-! ## Packet codec (pure functions at the top of index.js) -/

/-- Function scaleBetween of index.js:
`(maxOut - minOut) * (unscaledNum - minIn) / (maxIn - minIn) + minOut`. -/
def scaleBetween (unscaledNum minIn maxIn minOut maxOut : ℚ) : ℚ :=
  (maxOut - minOut) * (unscaledNum - minIn) / (maxIn - minIn) + minOut

/-- Function int32toArray of index.js: big-endian byte extraction by
mask-and-shift.  The top element is produced with the sign-propagating `>>`
and may therefore be negative. -/
def int32toArray (numberIn : Int) : List Int :=
  [jsShr (jsAnd numberIn 0xff000000) 24,
   jsShr (jsAnd numberIn 0x00ff0000) 16,
   jsShr (jsAnd numberIn 0x0000ff00) 8,
   jsAnd numberIn 0x000000ff]

/-- Function int16toArray of index.js. -/
def int16toArray (numberIn : Int) : List Int :=
  [jsShr (jsAnd numberIn 0x0000ff00) 8,
   jsAnd numberIn 0x000000ff]

/-- Function strToArray of index.js: UTF-8 bytes of the string
(TextEncoder), as natural numbers. -/
def strToArray (string : String) : List Nat :=
  string.toUTF8.toList.map (fun b => b.toNat)

/-- Function colorDataToArray of index.js: each of the 16 input bytes yields
its high nibble then its low nibble (out-of-range reads of the input give 0,
matching `undefined & m = 0` in JS). -/
def colorDataToArray (dataIn : List Nat) : List Nat :=
  ((List.range 16).map
    (fun i => [(dataIn.getD i 0 &&& 0xf0) >>> 4, dataIn.getD i 0 &&& 0x0f])).flatten

/-- Big-endian reconstruction of a byte list (the decoding direction the
spec pairs with int32toArray/int16toArray). -/
def reconBE (bs : List Int) : Int := bs.foldl (fun acc b => acc * 256 + b) 0

/-! ## Rate limiter -/

/-- State of the rate limiter: start time of the current one-second window
and the number of acquisitions granted in it. -/
structure RateLimiterState where
  windowStart : Nat
  count : Nat
deriving Repr, DecidableEq

/-- Modelled from the spec: the RateLimiter utility lives in
src/util/rateLimiter.js, which is not part of this repository's sources.
Per the spec (section 4.2) it tracks a rolling one-second window with a
maximum number of permitted acquisitions per window: a call first rolls the
window if a full second has elapsed since the window started, then accepts
(incrementing the window count) iff the count is below the maximum, and
rejects without side effects otherwise. -/
def okayToSend (rl : RateLimiterState) (now maxRate : Nat) : Bool × RateLimiterState :=
  let rl' := if rl.windowStart + 1000 ≤ now then ⟨now, 0⟩ else rl
  if rl'.count < maxRate then (true, ⟨rl'.windowStart, rl'.count + 1⟩)
  else (false, rl')

/-- Run a sequence of acquisition attempts at the given timestamps,
returning the list of accept/reject results and the final limiter state. -/
def runAcquisitions (rl : RateLimiterState) (maxRate : Nat) :
    List Nat → List Bool × RateLimiterState
  | [] => ([], rl)
  | t :: ts =>
    let (ok, rl') := okayToSend rl t maxRate
    let (rest, rlFinal) := runAcquisitions rl' maxRate ts
    (ok :: rest, rlFinal)

/-- Constant BLESendRateMax of index.js. -/
def BLESendRateMax : Nat := 20

/-- Constant BLESendInterval of index.js (milliseconds). -/
def BLESendInterval : ℚ := 100

/-! ## Peripheral session send path -/

/-- Result of Root.send: either the promise resolves without any transport
call (disconnected or rate-limited), or the message is forwarded to the BLE
write. -/
inductive SendOutcome where
  | noopResolve : SendOutcome
  | written : List ℚ → SendOutcome
deriving Repr, DecidableEq

/-- Method Root.send of index.js: if not connected, resolve as a no-op; if
the limiter is in use and rejects, resolve as a no-op; otherwise forward the
message to the transport write. -/
def send (connected : Bool) (rl : RateLimiterState) (now maxRate : Nat)
    (message : List ℚ) (useLimiter : Bool) : SendOutcome × RateLimiterState :=
  if !connected then (.noopResolve, rl)
  else if useLimiter then
    let (ok, rl') := okayToSend rl now maxRate
    if !ok then (.noopResolve, rl') else (.written message, rl')
  else (.written message, rl)

/-- Packet construction portion of Root.sendPacket of index.js:
`[deviceID, commandID, packetID] ++ payload ++ [checksum]` with packetID and
checksum both hard-coded to zero.  No padding or truncation is applied to
the payload. -/
def sendPacketBytes (deviceID commandID : ℚ) (payload : List ℚ) : List ℚ :=
  [deviceID, commandID, 0] ++ payload ++ [0]

/-- Method Root.sendPacket of index.js: build the packet and hand it to
Root.send (with the rate limiter in use, the default). -/
def sendPacket (connected : Bool) (rl : RateLimiterState) (now maxRate : Nat)
    (deviceID commandID : ℚ) (payload : List ℚ) : SendOutcome × RateLimiterState :=
  send connected rl now maxRate (sendPacketBytes deviceID commandID payload) true

/-! ## Inbound message decoding and sensor state -/

/-- Bumper flags of the Root constructor (`this._bumperState`). -/
structure BumperState where
  left : Bool
  right : Bool
deriving Repr, DecidableEq

/-- Top-touch flags of the Root constructor (`this._touchState`). -/
structure TouchState where
  frontLeft : Bool
  frontRight : Bool
  rearRight : Bool
  rearLeft : Bool
deriving Repr, DecidableEq

/-- Mutable sensor snapshot owned by the Root peripheral session. -/
structure RootState where
  bumperState : BumperState
  touchState : TouchState
  colorData : List Nat
  colorSums : List Nat
deriving Repr, DecidableEq

/-- Sensor state as initialized by the Root constructor. -/
def initialState : RootState :=
  { bumperState := ⟨false, false⟩
    touchState := ⟨false, false, false, false⟩
    colorData := List.replicate 32 0
    colorSums := List.replicate 16 0 }

/-- Completion signals emitted on the process-wide event bus by
Root._onMessage. -/
inductive Signal where
  | markerFinished : Signal
  | motorFinished : Signal
  | soundFinished : Signal
deriving Repr, DecidableEq

/-- Single histogram increment `this._colorSums[detectedColor]++` of the
color-scan branch of Root._onMessage. -/
def bumpSums (sums : List Nat) (detectedColor : Nat) : List Nat :=
  sums.set detectedColor (sums.getD detectedColor 0 + 1)

/-- Histogram recomputation of the color-scan branch of Root._onMessage:
clear the 16 sums, then increment the bin of each of the 32 decoded
values. -/
def computeColorSums (colorData : List Nat) : List Nat :=
  colorData.foldl bumpSums (List.replicate 16 0)

/-- Effect of one inbound frame: the updated sensor state, the completion
signals published, and whether the host-level stop-all was triggered. -/
structure MsgEffect where
  state : RootState
  published : List Signal
  stopAllTriggered : Bool
deriving Repr, DecidableEq

/-- Method Root._onMessage of index.js.  The frame is the decoded byte
array; `data[0]`/`data[1]` select the branch (reading past the end of the
frame yields no match, as `undefined == k` is false in JS), and payload
bytes read with `& mask` treat a missing byte as 0 (`undefined & m = 0`). -/
def onMessage (st : RootState) (data : List Nat) : MsgEffect :=
  let device := data.get? 0
  let command := data.get? 1
  if device == some 0 && command == some 4 then
    ⟨st, [], true⟩
  else if device == some 12 && command == some 0 then
    ⟨{ st with bumperState :=
        ⟨data.getD 7 0 &&& 0x80 ≠ 0, data.getD 7 0 &&& 0x40 ≠ 0⟩ }, [], false⟩
  else if device == some 17 && command == some 0 then
    ⟨{ st with touchState :=
        ⟨data.getD 7 0 &&& 0x80 ≠ 0, data.getD 7 0 &&& 0x40 ≠ 0,
         data.getD 7 0 &&& 0x20 ≠ 0, data.getD 7 0 &&& 0x10 ≠ 0⟩ }, [], false⟩
  else if device == some 4 && command == some 2 then
    let colorData := colorDataToArray ((data.drop 3).take 16)
    ⟨{ st with colorData := colorData
               colorSums := computeColorSums colorData }, [], false⟩
  else if device == some 2 && command == some 0 then
    ⟨st, [.markerFinished], false⟩
  else if device == some 1 && command == some 8 then
    ⟨st, [.motorFinished], false⟩
  else if device == some 1 && command == some 12 then
    ⟨st, [.motorFinished], false⟩
  else if device == some 5 && command == some 0 then
    ⟨st, [.soundFinished], false⟩
  else if device == some 5 && command == some 4 then
    ⟨st, [.soundFinished], false⟩
  else
    ⟨st, [], false⟩

/-! ## Command/response correlator -/

/-- Settlement of a block-level promise: resolved at a time, or rejected
with a timeout message at a time. -/
inductive Outcome where
  | resolved : ℚ → Outcome
  | rejected : String → ℚ → Outcome
deriving Repr, DecidableEq

/-- Whether an optional outcome is a successful resolution. -/
def isResolved : Option Outcome → Bool
  | some (.resolved _) => true
  | _ => false

/-- Settle-once semantics of the promise built by the correlated blocks: a
listener on the completion signal resolves the promise at each publish time,
and a timer rejects it at the deadline; the earliest settlement attempt wins
and every later attempt is a no-op.  `signals` is the (unordered) list of
publish times of the awaited completion signal. -/
def promiseRace (signals : List ℚ) (deadline : ℚ) (msg : String) : Outcome :=
  match signals.min? with
  | some t => if t < deadline then .resolved t else .rejected msg deadline
  | none => .rejected msg deadline

/-- Modelled from the spec: MathUtil.clamp lives in src/util/math-util.js,
which is not part of this repository's sources; per the spec clamping is
saturating. -/
def clamp (q lo hi : ℚ) : ℚ := min hi (max lo q)

/-- Result of one block-level operation: the send-path result (`none` when
the method returned before calling sendPacket), the limiter state after the
call, and the settlement of the returned promise (`none` when no promise is
produced). -/
structure BlockResult where
  sent : Option SendOutcome
  rl : RateLimiterState
  outcome : Option Outcome
deriving Repr, DecidableEq

/-- Method Scratch3RootBlocks.driveDistance of index.js: send
(1, 8, int32BE(distance*10) ++ 12 zeros), then race the motorFinished
signal against a deadline of distance*100+5000 ms. -/
def driveDistance (connected : Bool) (rl : RateLimiterState) (now maxRate : Nat)
    (distance : ℚ) (motorSignals : List ℚ) : BlockResult :=
  let payload := (int32toArray (ratTrunc (distance * 10))).map (fun z => (z : ℚ))
      ++ List.replicate 12 0
  let (s, rl') := sendPacket connected rl now maxRate 1 8 payload
  let timeout := distance * 100 + 5000
  ⟨some s, rl', some (promiseRace motorSignals timeout "Motor Timeout")⟩

/-- Method Scratch3RootBlocks.rotateAngle of index.js. -/
def rotateAngle (connected : Bool) (rl : RateLimiterState) (now maxRate : Nat)
    (angle : ℚ) (motorSignals : List ℚ) : BlockResult :=
  let payload := (int32toArray (ratTrunc (angle * 10))).map (fun z => (z : ℚ))
      ++ List.replicate 12 0
  let (s, rl') := sendPacket connected rl now maxRate 1 12 payload
  let timeout := angle * 15 + 5000
  ⟨some s, rl', some (promiseRace motorSignals timeout "Motor Timeout")⟩

/-- Method Scratch3RootBlocks.setSpeeds of index.js: clamp each wheel input
times ten into [-100, 100], send, and resolve after BLESendInterval. -/
def setSpeeds (connected : Bool) (rl : RateLimiterState) (now maxRate : Nat)
    (left right : ℚ) : BlockResult :=
  let l := clamp (left * 10) (-100) 100
  let r := clamp (right * 10) (-100) 100
  let payload := (int32toArray (ratTrunc l)).map (fun z => (z : ℚ))
      ++ (int32toArray (ratTrunc r)).map (fun z => (z : ℚ))
      ++ List.replicate 8 0
  let (s, rl') := sendPacket connected rl now maxRate 1 4 payload
  ⟨some s, rl', some (.resolved BLESendInterval)⟩

/-- Method Scratch3RootBlocks.setMarker of index.js: an unrecognized menu
value logs a warning and returns before sending; otherwise send
(2, 0, byte0 ++ 15 zeros) and race markerFinished against 5000 ms. -/
def setMarker (connected : Bool) (rl : RateLimiterState) (now maxRate : Nat)
    (marker : String) (markerSignals : List ℚ) : BlockResult :=
  let byte0 : Option ℚ :=
    if marker = "marker down" then some 0x01
    else if marker = "marker up" then some 0x00
    else if marker = "eraser down" then some 0x02
    else none
  match byte0 with
  | none => ⟨none, rl, none⟩
  | some b =>
    let payload := b :: List.replicate 15 0
    let (s, rl') := sendPacket connected rl now maxRate 2 0 payload
    ⟨some s, rl', some (promiseRace markerSignals 5000 "Marker Timeout")⟩

/-- Payload construction of Scratch3RootBlocks.setLightsRGB of index.js:
each channel is clamped by `Math.min(100, Math.max(0, x))` and rescaled by
scaleBetween into [0, 255]; byte 0 is 1 (on, no animation). -/
def setLightsRGBPayload (red green blue : ℚ) : List ℚ :=
  let r := min 100 (max 0 red)
  let g := min 100 (max 0 green)
  let b := min 100 (max 0 blue)
  [1, scaleBetween r 0 100 0 255, scaleBetween g 0 100 0 255,
   scaleBetween b 0 100 0 255] ++ List.replicate 12 0

/-- Method Scratch3RootBlocks.setLightsRGB of index.js: send
(3, 2, payload) and resolve after BLESendInterval. -/
def setLightsRGB (connected : Bool) (rl : RateLimiterState) (now maxRate : Nat)
    (red green blue : ℚ) : BlockResult :=
  let (s, rl') := sendPacket connected rl now maxRate 3 2
      (setLightsRGBPayload red green blue)
  ⟨some s, rl', some (.resolved BLESendInterval)⟩

/-- Method Scratch3RootBlocks.playNote of index.js: clamp frequency into
[20, 10000] and duration (seconds input times 1000) into [0, 65535], send
(5, 0, int32BE(freq) ++ int16BE(duration) ++ 10 zeros), and race
soundFinished against duration + 500 ms. -/
def playNote (connected : Bool) (rl : RateLimiterState) (now maxRate : Nat)
    (frequency durationSec : ℚ) (soundSignals : List ℚ) : BlockResult :=
  let freq := clamp frequency 20 10000
  let duration := clamp (durationSec * 1000) 0 65535
  let payload := (int32toArray (ratTrunc freq)).map (fun z => (z : ℚ))
      ++ (int16toArray (ratTrunc duration)).map (fun z => (z : ℚ))
      ++ List.replicate 10 0
  let (s, rl') := sendPacket connected rl now maxRate 5 0 payload
  let timeout := duration + 500
  ⟨some s, rl', some (promiseRace soundSignals timeout "Sound Timeout")⟩

/-- Method Scratch3RootBlocks.sayText of index.js: return before sending
when the text is empty; otherwise send (5, 4, UTF-8 bytes truncated or
zero-padded to 16) and race soundFinished against a fixed 5000 ms. -/
def sayText (connected : Bool) (rl : RateLimiterState) (now maxRate : Nat)
    (text : String) (soundSignals : List ℚ) : BlockResult :=
  if text.length = 0 then ⟨none, rl, none⟩
  else
    let raw := strToArray text
    let padded :=
      if 16 < raw.length then raw.take 16
      else raw ++ List.replicate (16 - raw.length) 0
    let payload := padded.map (fun b => (b : ℚ))
    let (s, rl') := sendPacket connected rl now maxRate 5 4 payload
    ⟨some s, rl', some (promiseRace soundSignals 5000 "Sound Timeout")⟩

/-- Method Root.stopAll of index.js: return immediately when not connected;
otherwise send the stop-and-reset command (0, 3) with the default 16-zero
payload.  No promise is produced (fire and forget). -/
def stopAll (connected : Bool) (rl : RateLimiterState) (now maxRate : Nat) :
    BlockResult :=
  if !connected then ⟨none, rl, none⟩
  else
    let (s, rl') := sendPacket connected rl now maxRate 0 3 (List.replicate 16 0)
    ⟨some s, rl', none⟩

end RootVM

namespace RootVM

/-! ## Arithmetic facts about the JS 32-bit primitives -/

lemma toUint32_lt (n : Int) : toUint32 n < 2 ^ 32 := by
  unfold toUint32
  omega

lemma toUint32_cast (n : Int) : (toUint32 n : Int) = n % 2 ^ 32 := by
  unfold toUint32
  omega

lemma toInt32_ofNat_small (v : Nat) (h : v < 2 ^ 31) : toInt32 (Int.ofNat v) = v := by
  unfold toInt32 toUint32
  simp only [Int.ofNat_eq_natCast]
  split <;> omega

lemma toInt32_eq_self (y : Int) (h1 : -(2 ^ 31) ≤ y) (h2 : y < 2 ^ 31) :
    toInt32 y = y := by
  unfold toInt32 toUint32
  split <;> omega

lemma land_byte_mask (u k : Nat) : u &&& (255 * 2 ^ k) = u / 2 ^ k % 256 * 2 ^ k := by
  apply Nat.eq_of_testBit_eq
  intro i
  rw [Nat.testBit_land,
    show (255 : Nat) * 2 ^ k = 255 <<< k by simp [Nat.shiftLeft_eq, Nat.mul_comm],
    show u / 2 ^ k % 256 * 2 ^ k = (u / 2 ^ k % 256) <<< k by simp [Nat.shiftLeft_eq],
    Nat.testBit_shiftLeft, Nat.testBit_shiftLeft]
  rcases Nat.lt_or_ge i k with h | h
  · simp [Nat.not_le.mpr h]
  · rw [show (255 : Nat) = 2 ^ 8 - 1 from rfl, Nat.testBit_two_pow_sub_one,
      show (256 : Nat) = 2 ^ 8 from rfl, Nat.testBit_mod_two_pow,
      ← Nat.shiftRight_eq_div_pow, Nat.testBit_shiftRight,
      show k + (i - k) = i by omega]
    simp only [ge_iff_le, h]
    cases u.testBit i <;> simp

lemma jsAnd_byte (n : Int) (k : Nat) (m : Int) (hm : toUint32 m = 255 * 2 ^ k)
    (hsmall : 255 * 2 ^ k < 2 ^ 31) :
    jsAnd n m = ((toUint32 n / 2 ^ k % 256 * 2 ^ k : Nat) : Int) := by
  unfold jsAnd
  rw [hm, land_byte_mask]
  have ht : toUint32 n / 2 ^ k % 256 < 256 := Nat.mod_lt _ (by norm_num)
  have : toUint32 n / 2 ^ k % 256 * 2 ^ k ≤ 255 * 2 ^ k :=
    Nat.mul_le_mul_right _ (by omega)
  rw [toInt32_ofNat_small _ (by omega)]

lemma jsShr_small (v : Nat) (k : Nat) (hk : k < 32) (hv : v < 2 ^ 31) :
    jsShr ((v : Nat) : Int) k = Int.fdiv v (2 ^ k) := by
  unfold jsShr
  rw [toInt32_eq_self _ (by omega) (by omega), Nat.mod_eq_of_lt hk]

lemma fdiv_mul_pow (t : Nat) (k : Nat) :
    Int.fdiv ((t * 2 ^ k : Nat) : Int) (2 ^ k) = t := by
  push_cast
  exact Int.mul_fdiv_cancel _ (by positivity)

lemma jsAnd_top (n : Int) :
    jsAnd n 0xff000000 =
      (if toUint32 n / 2 ^ 24 % 256 < 128
       then ((toUint32 n / 2 ^ 24 % 256 * 2 ^ 24 : Nat) : Int)
       else ((toUint32 n / 2 ^ 24 % 256 * 2 ^ 24 : Nat) : Int) - 2 ^ 32) := by
  unfold jsAnd
  rw [show toUint32 (0xff000000 : Int) = 255 * 2 ^ 24 by decide, land_byte_mask]
  have ht : toUint32 n / 2 ^ 24 % 256 < 256 := Nat.mod_lt _ (by norm_num)
  set t := toUint32 n / 2 ^ 24 % 256 with hteq
  have hv : toUint32 (Int.ofNat (t * 2 ^ 24)) = t * 2 ^ 24 := by
    unfold toUint32
    simp only [Int.ofNat_eq_natCast]
    omega
  unfold toInt32
  rw [hv]
  rcases Nat.lt_or_ge t 128 with h | h
  · rw [if_pos (by omega), if_pos h]
  · rw [if_neg (by omega), if_neg (by omega)]

lemma jsAnd_lowbyte (n : Int) :
    jsAnd n 0x000000ff = ((toUint32 n % 256 : Nat) : Int) := by
  have := jsAnd_byte n 0 0x000000ff (by decide) (by norm_num)
  simpa using this

lemma int32_bytes (n : Int) :
    int32toArray n =
      [(if toUint32 n / 2 ^ 24 % 256 < 128
        then ((toUint32 n / 2 ^ 24 % 256 : Nat) : Int)
        else ((toUint32 n / 2 ^ 24 % 256 : Nat) : Int) - 256),
       ((toUint32 n / 2 ^ 16 % 256 : Nat) : Int),
       ((toUint32 n / 2 ^ 8 % 256 : Nat) : Int),
       ((toUint32 n % 256 : Nat) : Int)] := by
  have ht : toUint32 n / 2 ^ 24 % 256 < 256 := Nat.mod_lt _ (by norm_num)
  unfold int32toArray
  rw [jsAnd_byte n 16 0x00ff0000 (by decide) (by norm_num),
      jsAnd_byte n 8 0x0000ff00 (by decide) (by norm_num),
      jsAnd_top n]
  rw [jsShr_small _ 16 (by norm_num) (by
        have : toUint32 n / 2 ^ 16 % 256 * 2 ^ 16 ≤ 255 * 2 ^ 16 :=
          Nat.mul_le_mul_right _
            (by have := Nat.mod_lt (toUint32 n / 2 ^ 16) (show 0 < 256 by norm_num); omega)
        omega),
      jsShr_small _ 8 (by norm_num) (by
        have : toUint32 n / 2 ^ 8 % 256 * 2 ^ 8 ≤ 255 * 2 ^ 8 :=
          Nat.mul_le_mul_right _
            (by have := Nat.mod_lt (toUint32 n / 2 ^ 8) (show 0 < 256 by norm_num); omega)
        omega),
      fdiv_mul_pow, fdiv_mul_pow, jsAnd_lowbyte]
  have hb0 : jsShr
      (if toUint32 n / 2 ^ 24 % 256 < 128
       then ((toUint32 n / 2 ^ 24 % 256 * 2 ^ 24 : Nat) : Int)
       else ((toUint32 n / 2 ^ 24 % 256 * 2 ^ 24 : Nat) : Int) - 2 ^ 32) 24 =
      (if toUint32 n / 2 ^ 24 % 256 < 128
       then ((toUint32 n / 2 ^ 24 % 256 : Nat) : Int)
       else ((toUint32 n / 2 ^ 24 % 256 : Nat) : Int) - 256) := by
    set t := toUint32 n / 2 ^ 24 % 256 with hteq
    rcases Nat.lt_or_ge t 128 with h | h
    · rw [if_pos h, if_pos h, jsShr_small _ 24 (by norm_num) (by omega), fdiv_mul_pow]
    · rw [if_neg (by omega), if_neg (by omega)]
      unfold jsShr
      rw [toInt32_eq_self _ (by push_cast; omega) (by push_cast; omega),
        show (24 % 32 : Nat) = 24 from rfl,
        show ((t * 2 ^ 24 : Nat) : Int) - 2 ^ 32 = ((t : Int) - 256) * 2 ^ 24 by
          push_cast; ring,
        Int.mul_fdiv_cancel _ (by positivity)]
  rw [hb0]

lemma int16_bytes (n : Int) :
    int16toArray n =
      [((toUint32 n / 2 ^ 8 % 256 : Nat) : Int), ((toUint32 n % 256 : Nat) : Int)] := by
  unfold int16toArray
  rw [jsAnd_byte n 8 0x0000ff00 (by decide) (by norm_num),
      jsShr_small _ 8 (by norm_num) (by
        have : toUint32 n / 2 ^ 8 % 256 * 2 ^ 8 ≤ 255 * 2 ^ 8 :=
          Nat.mul_le_mul_right _
            (by have := Nat.mod_lt (toUint32 n / 2 ^ 8) (show 0 < 256 by norm_num); omega)
        omega),
      fdiv_mul_pow, jsAnd_lowbyte]

end RootVM

namespace RootVM

/-! ## Claim C4 -/

/-- C4 counterexample: at n = 0xFF000000 the big-endian reconstruction of
int32toArray(n) is -16777216 (the top byte is sign-extended by the
JavaScript arithmetic shift), which differs from n mod 2^32 = 4278190080.
The claimed exact round-trip for int32toArray therefore fails. -/
theorem int32_roundtrip_counterexample :
    reconBE (int32toArray 4278190080) = -16777216
  ∧ reconBE (int32toArray 4278190080) ≠ (4278190080 : Int) % 2 ^ 32 := by
  constructor
  · decide
  · decide

/-- C4 (amended): int16toArray round-trips exactly to n mod 2^16; the
reconstruction of int32toArray is congruent to n modulo 2^32 (it equals
ToInt32(n), whose top byte is sign-extended and may be negative), and it
equals the nonnegative representative n mod 2^32 exactly when that
representative is below 2^31.  Both arrays have the stated lengths. -/
theorem int_codec_roundtrip (n : Int) :
    reconBE (int32toArray n) % 2 ^ 32 = n % 2 ^ 32
  ∧ reconBE (int16toArray n) = n % 2 ^ 16
  ∧ (int32toArray n).length = 4 ∧ (int16toArray n).length = 2
  ∧ (n % 2 ^ 32 < 2 ^ 31 → reconBE (int32toArray n) = n % 2 ^ 32) := by
  have hu := toUint32_lt n
  have hc := toUint32_cast n
  have h32 := int32_bytes n
  have h16 := int16_bytes n
  refine ⟨?_, ?_, ?_, ?_, ?_⟩
  · rw [h32]
    unfold reconBE
    simp only [List.foldl]
    rcases Nat.lt_or_ge (toUint32 n / 2 ^ 24 % 256) 128 with h | h
    · rw [if_pos h]; omega
    · rw [if_neg (by omega)]; omega
  · rw [h16]
    unfold reconBE
    simp only [List.foldl]
    omega
  · rw [h32]; rfl
  · rw [h16]; rfl
  · intro hlt
    rw [h32]
    unfold reconBE
    simp only [List.foldl]
    rcases Nat.lt_or_ge (toUint32 n / 2 ^ 24 % 256) 128 with h | h
    · rw [if_pos h]; omega
    · rw [if_neg (by omega)]; omega

/-- C4 witness: the amended round-trip theorem applied at n = 5. -/
theorem int_codec_roundtrip_witness :
    reconBE (int32toArray 5) = (5 : Int) % 2 ^ 32 :=
  (int_codec_roundtrip 5).2.2.2.2 (by norm_num)

/-! ## Claim C2 -/

/-- C2 counterexample: a one-byte payload (well within the claimed "at most
16 bytes") yields a 5-byte packet, not a 20-byte one: Root.sendPacket does
no padding. -/
theorem sendPacket_no_padding_counterexample :
    ([(5 : ℚ)].length ≤ 16) ∧ (sendPacketBytes 1 2 [5]).length ≠ 20 := by
  constructor
  · decide
  · decide

/-- C2 (amended): the packet built by Root.sendPacket is
[deviceID, commandID, 0] ++ payload ++ [0] with no padding, so its length is
always payload.length + 4; for the 16-byte payloads every call site (and the
default) supplies, the packet is exactly 20 bytes with packetID (offset 2)
and checksum (offset 19) both zero. -/
theorem sendPacket_layout (d c : ℚ) (payload : List ℚ) :
    sendPacketBytes d c payload = [d, c, 0] ++ payload ++ [0]
  ∧ (sendPacketBytes d c payload).length = payload.length + 4
  ∧ (payload.length = 16 →
      (sendPacketBytes d c payload).length = 20
      ∧ (sendPacketBytes d c payload).getD 2 0 = 0
      ∧ (sendPacketBytes d c payload).getD 19 0 = 0) := by
  refine ⟨rfl, by simp [sendPacketBytes], ?_⟩
  intro h
  refine ⟨by simp [sendPacketBytes, h], rfl, ?_⟩
  rw [sendPacketBytes, List.getD_eq_getElem?_getD,
    List.getElem?_append_right (by simp [h])]
  simp [h]

/-- C2 witness: the amended layout theorem applied to the stop-all packet
payload (16 zero bytes). -/
theorem sendPacket_layout_witness :
    (sendPacketBytes 0 3 (List.replicate 16 0)).length = 20 :=
  ((sendPacket_layout 0 3 (List.replicate 16 0)).2.2 (by simp)).1

/-! ## Claim C6 -/

/-- C6: Root.send resolves as a no-op success (with the limiter state left
untouched) when not connected; when connected with the limiter in use, a
limiter rejection also resolves as a no-op success without forwarding;
otherwise the message is forwarded to the transport write. -/
theorem send_noop_contract (rl : RateLimiterState) (now maxRate : Nat)
    (message : List ℚ) (useLimiter : Bool) :
    (send false rl now maxRate message useLimiter) = (.noopResolve, rl)
  ∧ ((okayToSend rl now maxRate).1 = false →
      (send true rl now maxRate message true).1 = .noopResolve)
  ∧ ((okayToSend rl now maxRate).1 = true →
      (send true rl now maxRate message true).1 = .written message)
  ∧ (send true rl now maxRate message false).1 = .written message := by
  refine ⟨by simp [send], ?_, ?_, by simp [send]⟩
  all_goals
    intro h
    rcases hok : okayToSend rl now maxRate with ⟨ok, rl2⟩
    rw [hok] at h
    simp only at h
    simp [send, hok, h]

/-- C6 witness: from a fresh limiter at time 0 with the default maximum, a
connected, limited send forwards its message. -/
theorem send_noop_contract_witness :
    (send true ⟨0, 0⟩ 0 BLESendRateMax [1] true).1 = .written [1] :=
  (send_noop_contract ⟨0, 0⟩ 0 BLESendRateMax [1] true).2.2.1 (by decide)

end RootVM

namespace RootVM

/-! ## Claim C5 -/

lemma okayToSend_no_roll (ws cnt t maxRate : Nat) (h : t < ws + 1000) :
    okayToSend ⟨ws, cnt⟩ t maxRate =
      if cnt < maxRate then (true, ⟨ws, cnt + 1⟩) else (false, ⟨ws, cnt⟩) := by
  unfold okayToSend
  rw [show (if (⟨ws, cnt⟩ : RateLimiterState).windowStart + 1000 ≤ t
        then (⟨t, 0⟩ : RateLimiterState) else ⟨ws, cnt⟩) = ⟨ws, cnt⟩
      from if_neg (by simp only; omega)]

lemma run_window_bound (times : List Nat) (ws cnt maxRate : Nat)
    (hin : ∀ t ∈ times, ws ≤ t ∧ t < ws + 1000) :
    ((runAcquisitions ⟨ws, cnt⟩ maxRate times).1.count true) ≤ maxRate - cnt := by
  induction times generalizing cnt with
  | nil => simp [runAcquisitions]
  | cons t ts ih =>
    have hw := hin t (by simp)
    have hts : ∀ x ∈ ts, ws ≤ x ∧ x < ws + 1000 := fun x hx => hin x (by simp [hx])
    by_cases hc : cnt < maxRate
    · simp only [runAcquisitions, okayToSend_no_roll ws cnt t maxRate hw.2, if_pos hc]
      rcases hrun : runAcquisitions ⟨ws, cnt + 1⟩ maxRate ts with ⟨rest, rlF⟩
      have := ih (cnt + 1) hts
      rw [hrun] at this
      simp [List.count_cons] at this ⊢
      omega
    · simp only [runAcquisitions, okayToSend_no_roll ws cnt t maxRate hw.2, if_neg hc]
      rcases hrun : runAcquisitions ⟨ws, cnt⟩ maxRate ts with ⟨rest, rlF⟩
      have := ih cnt hts
      rw [hrun] at this
      simp [List.count_cons] at this ⊢
      omega

/-- C5: starting from a fresh window, any sequence of acquisitions whose
timestamps all fall inside the current one-second window has at most
BLESendRateMax = 20 accepted; a burst of 25 acquisitions at one instant
yields exactly 20 accepts followed by 5 rejects; and once a full second has
elapsed the next acquisition is accepted again. -/
theorem rateLimiter_window (times : List Nat) (ws : Nat)
    (hin : ∀ t ∈ times, ws ≤ t ∧ t < ws + 1000) :
    ((runAcquisitions ⟨ws, 0⟩ BLESendRateMax times).1.count true ≤ BLESendRateMax)
  ∧ (runAcquisitions ⟨0, 0⟩ BLESendRateMax (List.replicate 25 0)).1
      = List.replicate 20 true ++ List.replicate 5 false
  ∧ (okayToSend (runAcquisitions ⟨0, 0⟩ BLESendRateMax (List.replicate 25 0)).2
      1000 BLESendRateMax).1 = true := by
  refine ⟨?_, by decide, by decide⟩
  have := run_window_bound times ws 0 BLESendRateMax hin
  omega

/-- C5 witness: the window bound applied to two acquisitions at time 0. -/
theorem rateLimiter_window_witness :
    (runAcquisitions ⟨0, 0⟩ BLESendRateMax [0, 0]).1.count true ≤ BLESendRateMax :=
  (rateLimiter_window [0, 0] 0 (by decide)).1

end RootVM

namespace RootVM

/-! ## Claim C1 -/

/-- C1 counterexample: driveDistance(10) invoked while disconnected does
not resolve successfully — with no connection no motorFinished signal can
arrive, so the returned promise settles with the Motor Timeout error at its
6000 ms deadline. -/
theorem disconnected_drive_times_out :
    (driveDistance false ⟨0, 0⟩ 0 BLESendRateMax 10 []).outcome
      = some (.rejected "Motor Timeout" 6000)
  ∧ isResolved (driveDistance false ⟨0, 0⟩ 0 BLESendRateMax 10 []).outcome = false := by
  constructor
  · simp [driveDistance, sendPacket, send, promiseRace]
    norm_num
  · simp [driveDistance, sendPacket, send, promiseRace, isResolved]

/-- C1 (amended): while disconnected, every send-based operation makes no
transport write and leaves the rate-limiter state unmutated; the
fire-and-forget operations (setSpeeds, setLightsRGB) resolve successfully
after BLESendInterval and stopAll returns without sending, but each
correlated operation (driveDistance, rotateAngle, setMarker, playNote,
sayText) still arms its deadline and — receiving no completion signal while
disconnected — settles with its Timeout error at the deadline instead of
resolving successfully. -/
theorem disconnected_ops (rl : RateLimiterState) (now maxRate : Nat)
    (distance angle l r red green blue freq dur : ℚ) :
    driveDistance false rl now maxRate distance []
      = ⟨some .noopResolve, rl, some (.rejected "Motor Timeout" (distance * 100 + 5000))⟩
  ∧ rotateAngle false rl now maxRate angle []
      = ⟨some .noopResolve, rl, some (.rejected "Motor Timeout" (angle * 15 + 5000))⟩
  ∧ setMarker false rl now maxRate "marker down" []
      = ⟨some .noopResolve, rl, some (.rejected "Marker Timeout" 5000)⟩
  ∧ playNote false rl now maxRate freq dur []
      = ⟨some .noopResolve, rl,
         some (.rejected "Sound Timeout" (clamp (dur * 1000) 0 65535 + 500))⟩
  ∧ sayText false rl now maxRate "Hello!" []
      = ⟨some .noopResolve, rl, some (.rejected "Sound Timeout" 5000)⟩
  ∧ setSpeeds false rl now maxRate l r
      = ⟨some .noopResolve, rl, some (.resolved BLESendInterval)⟩
  ∧ setLightsRGB false rl now maxRate red green blue
      = ⟨some .noopResolve, rl, some (.resolved BLESendInterval)⟩
  ∧ stopAll false rl now maxRate = ⟨none, rl, none⟩ := by
  refine ⟨?_, ?_, ?_, ?_, ?_, ?_, ?_, ?_⟩
  · simp [driveDistance, sendPacket, send, promiseRace]
  · simp [rotateAngle, sendPacket, send, promiseRace]
  · simp [setMarker, sendPacket, send, promiseRace]
  · simp [playNote, sendPacket, send, promiseRace]
  · simp only [sayText]
    rw [if_neg (by decide)]
    simp [sendPacket, send, promiseRace]
  · simp [setSpeeds, sendPacket, send]
  · simp [setLightsRGB, sendPacket, send]
  · simp [stopAll]

/-! ## Claim C3 -/

lemma promiseRace_cons_late (x : ℚ) (signals : List ℚ) (deadline : ℚ) (msg : String)
    (hx : deadline ≤ x) :
    promiseRace (x :: signals) deadline msg = promiseRace signals deadline msg := by
  unfold promiseRace
  rw [List.min?_cons]
  cases h : signals.min? with
  | none =>
    simp only [Option.elim]
    rw [if_neg (not_lt.mpr hx)]
  | some m =>
    simp only [Option.elim]
    rcases lt_or_ge m deadline with hm | hm
    · rw [min_eq_right (le_of_lt (lt_of_lt_of_le hm hx))]
    · rw [if_neg (by rw [not_lt, le_min_iff]; exact ⟨hx, hm⟩), if_neg (not_lt.mpr hm)]

/-- C3: driveDistance(10) races motorFinished against a deadline of
10 × 100 + 5000 = 6000 ms: if every motorFinished publish is at or after
6000 ms the call settles with the Motor Timeout error exactly at 6000 ms;
if the earliest publish is before 6000 ms the call settles successfully at
that publish time; and a settlement attempt arriving after the deadline has
already settled the promise is a no-op. -/
theorem driveDistance_correlation (rl : RateLimiterState) (now maxRate : Nat)
    (signals : List ℚ) :
    (driveDistance true rl now maxRate 10 signals).outcome
      = some (promiseRace signals 6000 "Motor Timeout")
  ∧ ((∀ t ∈ signals, 6000 ≤ t) →
      (driveDistance true rl now maxRate 10 signals).outcome
        = some (.rejected "Motor Timeout" 6000))
  ∧ (∀ t, signals.min? = some t → t < 6000 →
      (driveDistance true rl now maxRate 10 signals).outcome = some (.resolved t))
  ∧ (∀ x, 6000 ≤ x →
      promiseRace (x :: signals) 6000 "Motor Timeout"
        = promiseRace signals 6000 "Motor Timeout") := by
  have houtcome : (driveDistance true rl now maxRate 10 signals).outcome
      = some (promiseRace signals 6000 "Motor Timeout") := by
    rcases hsp : sendPacket true rl now maxRate 1 8
        ((int32toArray (ratTrunc (10 * 10))).map (fun z => (z : ℚ))
          ++ List.replicate 12 0) with ⟨s, rl2⟩
    simp only [driveDistance, hsp]
    norm_num
  refine ⟨houtcome, ?_, ?_, ?_⟩
  · intro hall
    rw [houtcome]
    unfold promiseRace
    cases h : signals.min? with
    | none => rfl
    | some m =>
      have hmem : m ∈ signals := List.min?_mem min_choice h
      simp [not_lt.mpr (hall m hmem)]
  · intro t ht hlt
    rw [houtcome]
    unfold promiseRace
    rw [ht]
    simp [hlt]
  · intro x hx
    exact promiseRace_cons_late x signals 6000 "Motor Timeout" hx

/-- C3 witness: with motorFinished published at t = 50 ms, driveDistance(10)
settles successfully at 50 ms, well before its 6000 ms deadline. -/
theorem driveDistance_correlation_witness :
    (driveDistance true ⟨0, 0⟩ 0 BLESendRateMax 10 [50]).outcome = some (.resolved 50) :=
  (driveDistance_correlation ⟨0, 0⟩ 0 BLESendRateMax [50]).2.2.1 50 (by rfl) (by norm_num)

end RootVM

namespace RootVM

/-! ## Claim C7 -/

/-- C7: a color-scan frame (deviceID 4, commandID 2) whose 16 payload bytes
(frame offsets 3..18) are all 0x11 decodes to 32 color values all equal to 1
(each byte yields its high nibble then its low nibble), and the recomputed
histogram has 32 in bin 1 and 0 in every other bin. -/
theorem colorScan_histogram (st : RootState) (data : List Nat)
    (hd : data.get? 0 = some 4) (hc : data.get? 1 = some 2)
    (hp : (data.drop 3).take 16 = List.replicate 16 0x11) :
    (onMessage st data).state.colorData = List.replicate 32 1
  ∧ (onMessage st data).state.colorSums = 0 :: 32 :: List.replicate 14 0 := by
  simp only [onMessage, hd, hc]
  norm_num
  rw [hp]
  constructor
  · decide
  · decide

/-- C7 witness: the concrete 20-byte frame [4, 2, 0, 0x11 × 16, 0] decodes
to 32 ones. -/
theorem colorScan_histogram_witness :
    (onMessage initialState (4 :: 2 :: 0 :: (List.replicate 16 0x11 ++ [0]))).state.colorData
      = List.replicate 32 1 :=
  (colorScan_histogram initialState _ (by rfl) (by rfl) (by decide)).1

/-! ## Claim C8 -/

lemma decide_and_eq_zero (b i : Nat) : decide (b &&& 2 ^ i = 0) = !b.testBit i := by
  rw [Nat.and_two_pow]
  cases h : b.testBit i <;> simp

/-- C8: a bumper-event frame (deviceID 12, commandID 0) overwrites the left
bumper flag with bit 0x80 (bit 7) of frame byte 7 and the right flag with
bit 0x40 (bit 6); byte7 = 0xC0 sets both flags and byte7 = 0x00 clears
both, whatever the prior state. -/
theorem bumper_update (st : RootState) (data : List Nat)
    (hd : data.get? 0 = some 12) (hc : data.get? 1 = some 0) :
    (onMessage st data).state.bumperState.left = (data.getD 7 0).testBit 7
  ∧ (onMessage st data).state.bumperState.right = (data.getD 7 0).testBit 6
  ∧ (onMessage st [12, 0, 0, 0, 0, 0, 0, 0xC0]).state.bumperState = ⟨true, true⟩
  ∧ (onMessage st [12, 0, 0, 0, 0, 0, 0, 0x00]).state.bumperState = ⟨false, false⟩ := by
  refine ⟨?_, ?_, rfl, rfl⟩
  · simp only [onMessage, hd, hc]
    norm_num
    exact decide_and_eq_zero _ 7
  · simp only [onMessage, hd, hc]
    norm_num
    rw [show (64 : Nat) = 2 ^ 6 from rfl]
    exact decide_and_eq_zero _ 6

/-- C8 witness: the concrete frame with byte7 = 0xC0 sets both bumper
flags. -/
theorem bumper_update_witness :
    (onMessage initialState [12, 0, 0, 0, 0, 0, 0, 0xC0]).state.bumperState
      = ⟨true, true⟩ :=
  (bumper_update initialState [12, 0, 0, 0, 0, 0, 0, 0xC0] (by rfl) (by rfl)).2.2.1

/-! ## Claim C9 -/

/-- C9: each RGB channel of setLightsRGB is saturating-clamped into
[0, 100] and then rescaled by scaleBetween into [0, 255]; red = 150 is
clamped to 100 and transmitted as 255 (inside the packet actually handed to
the transport write). -/
theorem setLightsRGB_clamp (red green blue : ℚ) :
    (setLightsRGBPayload red green blue).getD 1 0
      = scaleBetween (min 100 (max 0 red)) 0 100 0 255
  ∧ (0 ≤ min 100 (max 0 red) ∧ min 100 (max 0 red) ≤ 100)
  ∧ (0 ≤ (setLightsRGBPayload red green blue).getD 1 0
      ∧ (setLightsRGBPayload red green blue).getD 1 0 ≤ 255)
  ∧ min 100 (max 0 (150 : ℚ)) = 100
  ∧ (setLightsRGBPayload 150 green blue).getD 1 0 = 255
  ∧ (setLightsRGB true ⟨0, 0⟩ 0 BLESendRateMax 150 green blue).sent
      = some (.written (sendPacketBytes 3 2 (setLightsRGBPayload 150 green blue))) := by
  have hc0 : 0 ≤ min 100 (max 0 red) := le_min (by norm_num) (le_max_left 0 red)
  have hc1 : min 100 (max 0 red) ≤ 100 := min_le_left _ _
  have hscale : (setLightsRGBPayload red green blue).getD 1 0
      = 255 * min 100 (max 0 red) / 100 := by
    show scaleBetween (min 100 (max 0 red)) 0 100 0 255 = _
    rw [scaleBetween]
    norm_num
  refine ⟨rfl, ⟨hc0, hc1⟩, ⟨?_, ?_⟩, by norm_num, ?_, ?_⟩
  · rw [hscale]
    positivity
  · rw [hscale, div_le_iff₀ (by norm_num : (0 : ℚ) < 100)]
    linarith
  · show scaleBetween (min 100 (max 0 (150 : ℚ))) 0 100 0 255 = 255
    rw [scaleBetween]
    norm_num
  · simp [setLightsRGB, sendPacket, send, okayToSend, BLESendRateMax]

/-! ## Claim C10 -/

lemma foldl_bumpSums_length (l acc : List Nat) :
    (l.foldl bumpSums acc).length = acc.length := by
  induction l generalizing acc with
  | nil => rfl
  | cons x xs ih =>
    rw [List.foldl_cons, ih]
    simp [bumpSums, List.length_set]

/-- C10: for a 16-byte input of bytes, every one of the 32 decoded
nibble values is at most 15, and is therefore strictly below the length
(16) of the recomputed histogram — every histogram increment performed by
the color-scan handler indexes the array in bounds. -/
theorem colorNibbles_safe (dataIn : List Nat)
    (hlen : dataIn.length = 16) (hbytes : ∀ b ∈ dataIn, b ≤ 255) :
    (colorDataToArray dataIn).length = 32
  ∧ (∀ c ∈ colorDataToArray dataIn, c ≤ 15)
  ∧ (∀ c ∈ colorDataToArray dataIn,
      c < (computeColorSums (colorDataToArray dataIn)).length) := by
  have hmem : ∀ c ∈ colorDataToArray dataIn, c ≤ 15 := by
    intro c hcm
    simp only [colorDataToArray, List.mem_flatten, List.mem_map] at hcm
    obtain ⟨l, ⟨i, hi, hl⟩, hcl⟩ := hcm
    rw [← hl] at hcl
    simp only [List.mem_cons, List.not_mem_nil, or_false] at hcl
    rcases hcl with h | h
    · subst h
      rw [Nat.shiftRight_eq_div_pow]
      have : dataIn.getD i 0 &&& 0xf0 ≤ 0xf0 := Nat.and_le_right
      omega
    · subst h
      exact Nat.and_le_right
  have hlen32 : (colorDataToArray dataIn).length = 32 := by
    rw [colorDataToArray, List.length_flatten, List.map_map]
    rw [show (List.length ∘ fun i =>
        [(dataIn.getD i 0 &&& 0xf0) >>> 4, dataIn.getD i 0 &&& 0x0f]) = fun i => 2
      from rfl]
    simp [List.map_const', List.sum_replicate]
  have hsums : (computeColorSums (colorDataToArray dataIn)).length = 16 := by
    unfold computeColorSums
    rw [foldl_bumpSums_length]
    simp
  refine ⟨hlen32, hmem, ?_⟩
  intro c hcm
  rw [hsums]
  have := hmem c hcm
  omega

/-- C10 witness: the in-bounds theorem applied to the all-0x11 input. -/
theorem colorNibbles_safe_witness :
    (colorDataToArray (List.replicate 16 0x11)).length = 32 :=
  (colorNibbles_safe (List.replicate 16 0x11) (by decide) (by decide)).1

end RootVM
